import Mathlib

set_option autoImplicit false

/-!
Shallow embedding of the instruction-lowering core of the leaven
LLVM-IR-to-Go translator: `GetElementPtr` (expression.go) and
`TranslateInstruction` (instructions.go).

External collaborators (value rendering `FormatValue` / `FormatSigned` /
`FormatUnsigned`, type rendering `TypeSpec`, and the name service
`VariableName`) live outside the translated files; following the spec's
interface contracts they are modelled opaquely: each `Value` carries the
outcome of the three renderers and its printed form, `TypeSpec` is a
function parameter, and each result-producing instruction carries its
pre-assigned result name.

Go runtime panics (out-of-range slice indexing) are modelled by a third
outcome `Res.panic`, distinct from a returned error.
-/

/-- Outcome of a Go translation call: a returned string, a returned
non-nil error (the error's message), or a runtime panic. -/
inductive Res (α : Type) where
  | ok : α → Res α
  | err : String → Res α
  | panic : Res α
deriving DecidableEq, Repr

def Res.bind {α β : Type} : Res α → (α → Res β) → Res β
  | Res.ok a, f => f a
  | Res.err e, _ => Res.err e
  | Res.panic, _ => Res.panic

def Res.map {α β : Type} (f : α → β) : Res α → Res β
  | Res.ok a => Res.ok (f a)
  | Res.err e => Res.err e
  | Res.panic => Res.panic

/-- Wrap the message of an error outcome, as Go's
`fmt.Errorf("...context...: %v", err)` does. -/
def Res.ctx {α : Type} (r : Res α) (f : String → String) : Res α :=
  match r with
  | Res.ok a => Res.ok a
  | Res.err e => Res.err (f e)
  | Res.panic => Res.panic

/-- The closed set of IR types used by the core (llir `types.Type`):
integer(bit-width), pointer(elem), fixed array(len, elem), struct(fields),
void.  `types.Equal` is structural equality, i.e. `DecidableEq`. -/
inductive Ty where
  | int : Nat → Ty
  | ptr : Ty → Ty
  | array : Nat → Ty → Ty
  | struct : List Ty → Ty
  | void : Ty

mutual

def Ty.decEq : (a b : Ty) → Decidable (a = b)
  | Ty.int n, Ty.int m =>
    if h : n = m then isTrue (by rw [h]) else isFalse (by simp [h])
  | Ty.int _, Ty.ptr _ => isFalse (fun h => Ty.noConfusion h)
  | Ty.int _, Ty.array _ _ => isFalse (fun h => Ty.noConfusion h)
  | Ty.int _, Ty.struct _ => isFalse (fun h => Ty.noConfusion h)
  | Ty.int _, Ty.void => isFalse (fun h => Ty.noConfusion h)
  | Ty.ptr _, Ty.int _ => isFalse (fun h => Ty.noConfusion h)
  | Ty.ptr a, Ty.ptr b =>
    match Ty.decEq a b with
    | isTrue h => isTrue (by rw [h])
    | isFalse h => isFalse (by simp [h])
  | Ty.ptr _, Ty.array _ _ => isFalse (fun h => Ty.noConfusion h)
  | Ty.ptr _, Ty.struct _ => isFalse (fun h => Ty.noConfusion h)
  | Ty.ptr _, Ty.void => isFalse (fun h => Ty.noConfusion h)
  | Ty.array _ _, Ty.int _ => isFalse (fun h => Ty.noConfusion h)
  | Ty.array _ _, Ty.ptr _ => isFalse (fun h => Ty.noConfusion h)
  | Ty.array n a, Ty.array m b =>
    match Nat.decEq n m, Ty.decEq a b with
    | isTrue h1, isTrue h2 => isTrue (by rw [h1, h2])
    | isFalse h1, _ => isFalse (by simp [h1])
    | _, isFalse h2 => isFalse (by simp [h2])
  | Ty.array _ _, Ty.struct _ => isFalse (fun h => Ty.noConfusion h)
  | Ty.array _ _, Ty.void => isFalse (fun h => Ty.noConfusion h)
  | Ty.struct _, Ty.int _ => isFalse (fun h => Ty.noConfusion h)
  | Ty.struct _, Ty.ptr _ => isFalse (fun h => Ty.noConfusion h)
  | Ty.struct _, Ty.array _ _ => isFalse (fun h => Ty.noConfusion h)
  | Ty.struct fs, Ty.struct gs =>
    match Ty.decEqList fs gs with
    | isTrue h => isTrue (by rw [h])
    | isFalse h => isFalse (by simp [h])
  | Ty.struct _, Ty.void => isFalse (fun h => Ty.noConfusion h)
  | Ty.void, Ty.int _ => isFalse (fun h => Ty.noConfusion h)
  | Ty.void, Ty.ptr _ => isFalse (fun h => Ty.noConfusion h)
  | Ty.void, Ty.array _ _ => isFalse (fun h => Ty.noConfusion h)
  | Ty.void, Ty.struct _ => isFalse (fun h => Ty.noConfusion h)
  | Ty.void, Ty.void => isTrue rfl

def Ty.decEqList : (as bs : List Ty) → Decidable (as = bs)
  | [], [] => isTrue rfl
  | [], _ :: _ => isFalse (fun h => List.noConfusion h)
  | _ :: _, [] => isFalse (fun h => List.noConfusion h)
  | a :: as, b :: bs =>
    match Ty.decEq a b, Ty.decEqList as bs with
    | isTrue h1, isTrue h2 => isTrue (by rw [h1, h2])
    | isFalse h1, _ => isFalse (by simp [h1])
    | _, isFalse h2 => isFalse (by simp [h2])

end

instance : DecidableEq Ty := Ty.decEq

mutual

/-- Printed form of a type (`%v` verb), used only inside error messages. -/
def tyStr : Ty → String
  | Ty.int n => "i" ++ toString n
  | Ty.ptr e => tyStr e ++ "*"
  | Ty.array n e => "[" ++ toString n ++ " x " ++ tyStr e ++ "]"
  | Ty.struct fs => "\x7b " ++ tyStrList fs ++ " \x7d"
  | Ty.void => "void"

def tyStrList : List Ty → String
  | [] => ""
  | [t] => tyStr t
  | t :: rest => tyStr t ++ ", " ++ tyStrList rest

end

/-- Go dynamic type name of a type value (`%T` verb), used only inside
error messages. -/
def tyTypeName : Ty → String
  | Ty.int _ => "*types.IntType"
  | Ty.ptr _ => "*types.PointerType"
  | Ty.array _ _ => "*types.ArrayType"
  | Ty.struct _ => "*types.StructType"
  | Ty.void => "*types.VoidType"

/-- An IR operand (llir `value.Value`), modelled opaquely per the spec's
collaborator contracts: its static type, whether it is a `*constant.Int`
(and that constant's value), the outcomes of the three external renderers
`FormatValue` / `FormatSigned` / `FormatUnsigned`, and its printed form
for error messages (`%v` verb). -/
structure Value where
  typ : Ty
  constInt : Option Int
  natural : Res String
  signed : Res String
  unsigned : Res String
  vstr : String
deriving DecidableEq

/-- Go's `%q` verb on a value: its printed form, double-quoted. -/
def goQuote (s : String) : String := "\"" ++ s ++ "\""

/-- `big.Int.Int64()`: the low 64 bits of the integer, as a signed
64-bit value. -/
def int64wrap (i : Int) : Int := (i + 2 ^ 63) % 2 ^ 64 - 2 ^ 63

/-- The aggregate-navigation loop of `GetElementPtr`
(expression.go lines 58-81): walk `indices[1:]`, threading the running
expression text, the active type and the `takeAddress` flag. -/
def gepLoop : List Value → Ty → String → Bool → Res (String × Bool)
  | [], _, result, takeAddress => Res.ok (result, takeAddress)
  | index :: more, currentType, result, _ =>
    match currentType with
    | Ty.array _ elemT =>
      Res.bind (Res.ctx index.natural (fun e =>
          "error translating index (" ++ index.vstr ++ "): " ++ e))
        (fun v => gepLoop more elemT (result ++ "[" ++ v ++ "]") true)
    | Ty.struct fields =>
      match index.constInt with
      | none => Res.err ("non-constant index into struct: " ++ index.vstr)
      | some i =>
        let j := int64wrap i
        if h : 0 ≤ j ∧ j.toNat < fields.length then
          gepLoop more (fields.get ⟨j.toNat, h.2⟩)
            (result ++ ".f" ++ toString i) true
        else Res.panic
    | t => Res.err ("unsupported type to index into: " ++ tyStr t)

/-- The straight-line head of `GetElementPtr` (expression.go lines
21-54): classify index 0, render the base pointer, and, unless index 0
is the constant zero, build the byte-offset reinterpretation
expression. -/
def gepHead (ts : Ty → Res String) (elemType : Ty) (src : Value)
    (i0 : Value) : Res String :=
  let zeroFirstIndex : Bool := match i0.constInt with
    | some x => x == 0
    | none => false
  let positiveFirstIndex : Bool := match i0.constInt with
    | some x => 0 < x
    | none => false
  Res.bind (Res.ctx src.natural (fun e =>
      "error translating source pointer (" ++ goQuote src.vstr ++ "): " ++ e))
    (fun source =>
      if zeroFirstIndex then Res.ok source
      else
        Res.bind (Res.ctx i0.natural (fun e =>
            "error translating first index (" ++ i0.vstr ++ "): " ++ e))
          (fun firstIndex =>
            Res.bind (Res.ctx (ts elemType) (fun e =>
                "error translating element type (" ++ tyStr elemType ++ "): " ++ e))
              (fun et =>
                let offset :=
                  if positiveFirstIndex then
                    firstIndex ++ " * unsafe.Sizeof(*(*" ++ et ++ ")(nil))"
                  else
                    "uintptr(int64(" ++ firstIndex ++ ")) * unsafe.Sizeof(*(*"
                      ++ et ++ ")(nil))"
                Res.ok ("(*" ++ et ++ ")(unsafe.Pointer(uintptr(unsafe.Pointer("
                  ++ source ++ ")) + " ++ offset ++ "))"))))

/-- `GetElementPtr` (expression.go lines 12-88): the standalone
element-address resolver.  `ts` is the external `TypeSpec` collaborator.
Reading `indices[0]` of an empty slice is a Go panic. -/
def GetElementPtr (ts : Ty → Res String) (elemType : Ty) (src : Value)
    (indices : List Value) : Res String :=
  match src.typ with
  | Ty.ptr srcElem =>
    if srcElem = elemType then
      match indices with
      | [] => Res.panic
      | i0 :: rest =>
        Res.bind (gepHead ts elemType src i0) (fun result =>
          Res.bind (gepLoop rest elemType result false) (fun p =>
            Res.ok (if p.2 then "&" ++ p.1 else p.1)))
    else Res.err "mismatched source and element types"
  | t => Res.err ("non-pointer source parameter: " ++ tyStr t)

/-- Comparison predicates (llir `enum.IPred`), the closed ten-member
enumeration. -/
inductive IPred where
  | eq | ne | sge | sgt | sle | slt | uge | ugt | ule | ult
deriving DecidableEq

/-- The closed set of instruction variants handled by
`TranslateInstruction` (instructions.go).  Each result-producing variant
carries its pre-assigned result name (the external `VariableName`
collaborator); `unsupported` stands for any other `ir.Instruction`
dynamic type and carries that type's `%T` text. -/
inductive Inst where
  | add (name : String) (x y : Value)
  | alloca (name : String) (elemType : Ty) (nelems : Option Value)
  | and (name : String) (x y : Value)
  | bitcast (name : String) (fromVal : Value) (toTy : Ty)
  | call (name : String) (callee : Value) (args : List Value) (typ : Ty)
  | getelementptr (name : String) (src : Value) (elemType : Ty)
      (indices : List Value)
  | icmp (name : String) (pred : IPred) (x y : Value)
  | load (name : String) (src : Value)
  | lshr (name : String) (x y : Value) (typ : Ty)
  | mul (name : String) (x y : Value)
  | or (name : String) (x y : Value)
  | ptrtoint (name : String) (fromVal : Value) (toTy : Ty)
  | select (name : String) (cond x y : Value)
  | sext (name : String) (fromVal : Value) (toTy : Ty)
  | shl (name : String) (x y : Value)
  | store (dst src : Value)
  | sub (name : String) (x y : Value)
  | trunc (name : String) (toTy : Ty) (fromVal : Value)
  | zext (name : String) (fromVal : Value) (toTy : Ty)
  | unsupported (typeName : String)

/-- The argument-rendering loop of the call case
(instructions.go lines 76-83). -/
def renderArgs : List Value → Nat → Res (List String)
  | [], _ => Res.ok []
  | a :: rest, i =>
    Res.bind (Res.ctx a.natural (fun e =>
        "error translating argument " ++ toString i ++ " (" ++ a.vstr ++ "): " ++ e))
      (fun v => Res.map (fun vs => v :: vs) (renderArgs rest (i + 1)))

/-- The aggregate-navigation loop of the getelementptr case of
`TranslateInstruction` (instructions.go lines 135-158), a duplicate of
the loop in expression.go. -/
def instGepLoop : List Value → Ty → String → Bool → Res (String × Bool)
  | [], _, result, takeAddress => Res.ok (result, takeAddress)
  | index :: more, currentType, result, _ =>
    match currentType with
    | Ty.array _ elemT =>
      Res.bind (Res.ctx index.natural (fun e =>
          "error translating index (" ++ index.vstr ++ "): " ++ e))
        (fun v => instGepLoop more elemT (result ++ "[" ++ v ++ "]") true)
    | Ty.struct fields =>
      match index.constInt with
      | none => Res.err ("non-constant index into struct: " ++ index.vstr)
      | some i =>
        let j := int64wrap i
        if h : 0 ≤ j ∧ j.toNat < fields.length then
          instGepLoop more (fields.get ⟨j.toNat, h.2⟩)
            (result ++ ".f" ++ toString i) true
        else Res.panic
    | t => Res.err ("unsupported type to index into: " ++ tyStr t)

/-- The straight-line head of the getelementptr case of
`TranslateInstruction` (instructions.go lines 98-131), a duplicate of
the head in expression.go. -/
def instGepHead (ts : Ty → Res String) (elemType : Ty) (src : Value)
    (i0 : Value) : Res String :=
  let zeroFirstIndex : Bool := match i0.constInt with
    | some x => x == 0
    | none => false
  let positiveFirstIndex : Bool := match i0.constInt with
    | some x => 0 < x
    | none => false
  Res.bind (Res.ctx src.natural (fun e =>
      "error translating source pointer (" ++ goQuote src.vstr ++ "): " ++ e))
    (fun source =>
      if zeroFirstIndex then Res.ok source
      else
        Res.bind (Res.ctx i0.natural (fun e =>
            "error translating first index (" ++ i0.vstr ++ "): " ++ e))
          (fun firstIndex =>
            Res.bind (Res.ctx (ts elemType) (fun e =>
                "error translating element type (" ++ tyStr elemType ++ "): " ++ e))
              (fun elemTypeStr =>
                let offset :=
                  if positiveFirstIndex then
                    firstIndex ++ " * unsafe.Sizeof(*(*" ++ elemTypeStr ++ ")(nil))"
                  else
                    "uintptr(int64(" ++ firstIndex ++ ")) * unsafe.Sizeof(*(*"
                      ++ elemTypeStr ++ ")(nil))"
                Res.ok ("(*" ++ elemTypeStr
                  ++ ")(unsafe.Pointer(uintptr(unsafe.Pointer("
                  ++ source ++ ")) + " ++ offset ++ "))"))))

/-- `TranslateInstruction` (instructions.go lines 14-353): lower one IR
instruction to one Go statement.  `ts` is the external `TypeSpec`
collaborator. -/
def TranslateInstruction (ts : Ty → Res String) : Inst → Res String
  | Inst.add name x y =>
    Res.bind (Res.ctx x.natural (fun e =>
        "error translating left operand (" ++ x.vstr ++ "): " ++ e))
      (fun xs =>
        Res.bind (Res.ctx y.natural (fun e =>
            "error translating right operand (" ++ x.vstr ++ "): " ++ e))
          (fun ys => Res.ok (name ++ " = " ++ xs ++ " + " ++ ys)))
  | Inst.alloca name elemType nelems =>
    Res.bind (Res.ctx (ts elemType) (fun e =>
        "error translating type (" ++ tyStr elemType ++ "): " ++ e))
      (fun t =>
        match nelems with
        | none => Res.ok (name ++ " = new(" ++ t ++ ")")
        | some nv =>
          Res.bind (Res.ctx nv.natural (fun e =>
              "error translating NElems (" ++ nv.vstr ++ "): " ++ e))
            (fun n => Res.ok (name ++ " = &make([]" ++ t ++ ", " ++ n ++ ")[0]")))
  | Inst.and name x y =>
    Res.bind (Res.ctx x.natural (fun e =>
        "error translating left operand (" ++ x.vstr ++ "): " ++ e))
      (fun xs =>
        Res.bind (Res.ctx y.natural (fun e =>
            "error translating right operand (" ++ x.vstr ++ "): " ++ e))
          (fun ys => Res.ok (name ++ " = " ++ xs ++ " & " ++ ys)))
  | Inst.bitcast name fromVal toTy =>
    Res.bind (Res.ctx fromVal.natural (fun e =>
        "error translating source (" ++ fromVal.vstr ++ "): " ++ e))
      (fun f =>
        Res.bind (Res.ctx (ts toTy) (fun e =>
            "error translating type (" ++ tyStr toTy ++ "): " ++ e))
          (fun t => Res.ok (name ++ " = (" ++ t ++ ")(unsafe.Pointer(" ++ f ++ "))")))
  | Inst.call name callee args typ =>
    Res.bind (Res.ctx callee.natural (fun e =>
        "error translating callee (" ++ callee.vstr ++ "): " ++ e))
      (fun c =>
        if c = "llvm.lifetime.start" ∨ c = "llvm.lifetime.end" then Res.ok ""
        else if c = "llvm.objectsize.i64.p0i8" then Res.ok (name ++ " = -1")
        else
          Res.bind (renderArgs args 0) (fun argStrs =>
            if typ = Ty.void then
              Res.ok (c ++ "(" ++ String.intercalate ", " argStrs ++ ")")
            else
              Res.ok (name ++ " = " ++ c ++ "("
                ++ String.intercalate ", " argStrs ++ ")")))
  | Inst.getelementptr name src elemType indices =>
    (match src.typ with
    | Ty.ptr srcElem =>
      if srcElem = elemType then
        match indices with
        | [] => Res.panic
        | i0 :: rest =>
          Res.bind (instGepHead ts elemType src i0) (fun result =>
            Res.bind (instGepLoop rest elemType result false) (fun p =>
              if p.2 then Res.ok (name ++ " = &" ++ p.1)
              else Res.ok (name ++ " = " ++ p.1)))
      else Res.err "mismatched source and element types"
    | t => Res.err ("non-pointer source parameter: " ++ tyStr t))
  | Inst.icmp name pred x y =>
    let opFormat : String × (Value → Res String) :=
      match pred with
      | IPred.eq => ("==", Value.natural)
      | IPred.ne => ("!=", Value.natural)
      | IPred.sge => (">=", Value.signed)
      | IPred.sgt => (">", Value.signed)
      | IPred.sle => ("<=", Value.signed)
      | IPred.slt => ("<", Value.signed)
      | IPred.uge => (">=", Value.unsigned)
      | IPred.ugt => (">", Value.unsigned)
      | IPred.ule => ("<=", Value.unsigned)
      | IPred.ult => ("<", Value.unsigned)
    Res.bind (Res.ctx (opFormat.2 x) (fun e =>
        "error translating left operand (" ++ x.vstr ++ "): " ++ e))
      (fun xs =>
        Res.bind (Res.ctx (opFormat.2 y) (fun e =>
            "error translating right operand (" ++ x.vstr ++ "): " ++ e))
          (fun ys =>
            Res.ok (name ++ " = " ++ xs ++ " " ++ opFormat.1 ++ " " ++ ys)))
  | Inst.load name src =>
    Res.bind (Res.ctx src.natural (fun e =>
        "error translating source (" ++ src.vstr ++ "): " ++ e))
      (fun s => Res.ok (name ++ " = *" ++ s))
  | Inst.lshr name x y typ =>
    Res.bind (Res.ctx x.unsigned (fun e =>
        "error translating left operand (" ++ x.vstr ++ "): " ++ e))
      (fun xs =>
        Res.bind (Res.ctx y.unsigned (fun e =>
            "error translating right operand (" ++ x.vstr ++ "): " ++ e))
          (fun ys =>
            match typ with
            | Ty.int n =>
              if 8 < n then
                Res.ok (name ++ " = int" ++ toString n ++ "(" ++ xs ++ " >> " ++ ys ++ ")")
              else Res.ok (name ++ " = " ++ xs ++ " >> " ++ ys)
            | _ => Res.ok (name ++ " = " ++ xs ++ " >> " ++ ys)))
  | Inst.mul name x y =>
    Res.bind (Res.ctx x.natural (fun e =>
        "error translating left operand (" ++ x.vstr ++ "): " ++ e))
      (fun xs =>
        Res.bind (Res.ctx y.natural (fun e =>
            "error translating right operand (" ++ x.vstr ++ "): " ++ e))
          (fun ys => Res.ok (name ++ " = " ++ xs ++ " * " ++ ys)))
  | Inst.or name x y =>
    Res.bind (Res.ctx x.natural (fun e =>
        "error translating left operand (" ++ x.vstr ++ "): " ++ e))
      (fun xs =>
        Res.bind (Res.ctx y.natural (fun e =>
            "error translating right operand (" ++ x.vstr ++ "): " ++ e))
          (fun ys => Res.ok (name ++ " = " ++ xs ++ " | " ++ ys)))
  | Inst.ptrtoint name fromVal toTy =>
    Res.bind (Res.ctx fromVal.natural (fun e =>
        "error translating source (" ++ fromVal.vstr ++ "): " ++ e))
      (fun f =>
        Res.bind (Res.ctx (ts toTy) (fun e =>
            "error translating type (" ++ tyStr toTy ++ "): " ++ e))
          (fun t =>
            Res.ok (name ++ " = " ++ t ++ "(uintptr(unsafe.Pointer(" ++ f ++ ")))")))
  | Inst.select name cond x y =>
    Res.bind (Res.ctx cond.natural (fun e =>
        "error translating condition (" ++ cond.vstr ++ "): " ++ e))
      (fun c =>
        Res.bind (Res.ctx x.natural (fun e =>
            "error translating first operand (" ++ x.vstr ++ "): " ++ e))
          (fun xs =>
            Res.bind (Res.ctx y.natural (fun e =>
                "error translating second operand (" ++ y.vstr ++ "): " ++ e))
              (fun ys =>
                Res.ok ("if " ++ c ++ " \x7b " ++ name ++ " = " ++ xs
                  ++ " \x7d else \x7b " ++ name ++ " = " ++ ys ++ " \x7d"))))
  | Inst.sext name fromVal toTy =>
    (match toTy with
    | Ty.int n =>
      Res.bind (Res.ctx fromVal.signed (fun e =>
          "error translating source (" ++ fromVal.vstr ++ "): " ++ e))
        (fun f => Res.ok (name ++ " = int" ++ toString n ++ "(" ++ f ++ ")"))
    | t => Res.err ("unsupported To type for zext: " ++ tyTypeName t))
  | Inst.shl name x y =>
    Res.bind (Res.ctx x.natural (fun e =>
        "error translating left operand (" ++ x.vstr ++ "): " ++ e))
      (fun xs =>
        Res.bind (Res.ctx y.unsigned (fun e =>
            "error translating right operand (" ++ x.vstr ++ "): " ++ e))
          (fun ys => Res.ok (name ++ " = " ++ xs ++ " << " ++ ys)))
  | Inst.store dst src =>
    Res.bind (Res.ctx dst.natural (fun e =>
        "error translating destination (" ++ dst.vstr ++ "): " ++ e))
      (fun d =>
        Res.bind (Res.ctx src.natural (fun e =>
            "error translating source (" ++ src.vstr ++ "): " ++ e))
          (fun s => Res.ok ("*" ++ d ++ " = " ++ s)))
  | Inst.sub name x y =>
    Res.bind (Res.ctx x.natural (fun e =>
        "error translating left operand (" ++ x.vstr ++ "): " ++ e))
      (fun xs =>
        Res.bind (Res.ctx y.natural (fun e =>
            "error translating right operand (" ++ x.vstr ++ "): " ++ e))
          (fun ys => Res.ok (name ++ " = " ++ xs ++ " - " ++ ys)))
  | Inst.trunc name toTy fromVal =>
    Res.bind (Res.ctx (ts toTy) (fun e =>
        "error translating To type (" ++ tyStr toTy ++ "): " ++ e))
      (fun t =>
        Res.bind (Res.ctx fromVal.natural (fun e =>
            "error translating source (" ++ fromVal.vstr ++ "): " ++ e))
          (fun f => Res.ok (name ++ " = " ++ t ++ "(" ++ f ++ ")")))
  | Inst.zext name fromVal toTy =>
    (match toTy with
    | Ty.int n =>
      Res.bind (Res.ctx fromVal.unsigned (fun e =>
          "error translating source (" ++ fromVal.vstr ++ "): " ++ e))
        (fun f =>
          Res.ok (name ++ " = int" ++ toString n ++ "(uint" ++ toString n
            ++ "(" ++ f ++ "))"))
    | t => Res.err ("unsupported To type for zext: " ++ tyTypeName t))
  | Inst.unsupported typeName =>
    Res.err ("unsupported instruction type: " ++ typeName)

/-- Sample `TypeSpec` collaborator for concrete witnesses: renders every
type as its printed form. -/
def tsSample : Ty → Res String := fun t => Res.ok (tyStr t)

/-- A one-field struct type used in concrete witnesses. -/
def structI32 : Ty := Ty.struct [Ty.int 32]

/-- A non-constant base pointer of type pointer-to-`structI32`,
rendering as `x`. -/
def baseSample : Value :=
  ⟨Ty.ptr structI32, none, Res.ok "x", Res.ok "x", Res.ok "x", "%x"⟩

/-- The constant 0 at 64 bits. -/
def idxZero64 : Value :=
  ⟨Ty.int 64, some 0, Res.ok "0", Res.ok "0", Res.ok "0", "i64 0"⟩

/-- The constant 0 at 32 bits. -/
def idxZero32 : Value :=
  ⟨Ty.int 32, some 0, Res.ok "0", Res.ok "0", Res.ok "0", "i32 0"⟩

/-- The constant 2 at 64 bits. -/
def idxTwo64 : Value :=
  ⟨Ty.int 64, some 2, Res.ok "2", Res.ok "2", Res.ok "2", "i64 2"⟩

/-- The constant -3 at 64 bits. -/
def idxNegThree64 : Value :=
  ⟨Ty.int 64, some (-3), Res.ok "-3", Res.ok "-3", Res.ok "-3", "i64 -3"⟩

/-- The constant 5 at 32 bits (out of range as an index into
`structI32`'s single field). -/
def idxFive32 : Value :=
  ⟨Ty.int 32, some 5, Res.ok "5", Res.ok "5", Res.ok "5", "i32 5"⟩

/-- A non-constant 64-bit index rendering as `n`. -/
def idxVar64 : Value :=
  ⟨Ty.int 64, none, Res.ok "n", Res.ok "n", Res.ok "n", "%n"⟩

/-- An operand rendering as `a` under every representation. -/
def operandA : Value :=
  ⟨Ty.int 32, none, Res.ok "a", Res.ok "a", Res.ok "a", "i32 %a"⟩

/-- An operand rendering as `b` under every representation. -/
def operandB : Value :=
  ⟨Ty.int 32, none, Res.ok "b", Res.ok "b", Res.ok "b", "i32 %b"⟩

/-- An operand whose rendering always fails. -/
def operandBad : Value :=
  ⟨Ty.int 32, none, Res.err "unsupported value", Res.err "unsupported value",
    Res.err "unsupported value", "i32 %bad"⟩

theorem instGepHead_eq_gepHead : instGepHead = gepHead := rfl

theorem instGepLoop_eq_gepLoop (idxs : List Value) :
    ∀ (t : Ty) (r : String) (b : Bool), instGepLoop idxs t r b = gepLoop idxs t r b := by
  induction idxs with
  | nil => intro t r b; rfl
  | cons index more ih =>
    intro t r b
    cases t with
    | int n => rfl
    | ptr e => rfl
    | void => rfl
    | array n e =>
      cases hn : index.natural with
      | ok v => simp [instGepLoop, gepLoop, Res.ctx, hn, Res.bind, ih]
      | err e2 => simp [instGepLoop, gepLoop, Res.ctx, hn, Res.bind]
      | panic => simp [instGepLoop, gepLoop, Res.ctx, hn, Res.bind]
    | struct fields =>
      cases hc : index.constInt with
      | none => simp [instGepLoop, gepLoop, hc]
      | some i =>
        by_cases h : 0 ≤ int64wrap i ∧ (int64wrap i).toNat < fields.length
        · simp [instGepLoop, gepLoop, hc, h, ih]
        · simp [instGepLoop, gepLoop, hc, h]

theorem prefix_amp (a s : String) : a ++ " = " ++ ("&" ++ s) = a ++ " = &" ++ s := by
  rw [← String.append_assoc (a ++ " = ") "&" s, String.append_assoc a " = " "&"]
  rfl

theorem map_assign (name : String) (r : Res (String × Bool)) :
    Res.map (fun s => name ++ " = " ++ s)
      (Res.bind r (fun p => Res.ok (if p.2 then "&" ++ p.1 else p.1)))
    = Res.bind r (fun p =>
        if p.2 then Res.ok (name ++ " = &" ++ p.1)
        else Res.ok (name ++ " = " ++ p.1)) := by
  cases r with
  | ok p =>
    rcases p with ⟨s, b⟩
    cases b with
    | true => simp [Res.bind, Res.map, prefix_amp]
    | false => simp [Res.bind, Res.map]
  | err e => rfl
  | panic => rfl

theorem gepLoop_true_flag (idxs : List Value) :
    ∀ (t : Ty) (r body : String) (ta : Bool),
      gepLoop idxs t r true = Res.ok (body, ta) → ta = true := by
  induction idxs with
  | nil => intro t r body ta h; simp [gepLoop] at h; exact h.2
  | cons index more ih =>
    intro t r body ta h
    cases t with
    | int n => simp [gepLoop] at h
    | ptr e => simp [gepLoop] at h
    | void => simp [gepLoop] at h
    | array n e =>
      cases hn : index.natural with
      | ok v =>
        simp [gepLoop, Res.ctx, hn, Res.bind] at h
        exact ih _ _ _ _ h
      | err e2 => simp [gepLoop, Res.ctx, hn, Res.bind] at h
      | panic => simp [gepLoop, Res.ctx, hn, Res.bind] at h
    | struct fields =>
      cases hc : index.constInt with
      | none => simp [gepLoop, hc] at h
      | some i =>
        by_cases hb : 0 ≤ int64wrap i ∧ (int64wrap i).toNat < fields.length
        · simp [gepLoop, hc, hb] at h
          exact ih _ _ _ _ h
        · simp [gepLoop, hc, hb] at h

theorem gepLoop_flag_of_ne_nil (idxs : List Value) (hne : idxs ≠ [])
    (t : Ty) (r body : String) (ta : Bool)
    (h : gepLoop idxs t r false = Res.ok (body, ta)) : ta = true := by
  cases idxs with
  | nil => exact absurd rfl hne
  | cons index more =>
    cases t with
    | int n => simp [gepLoop] at h
    | ptr e => simp [gepLoop] at h
    | void => simp [gepLoop] at h
    | array n e =>
      cases hn : index.natural with
      | ok v =>
        simp [gepLoop, Res.ctx, hn, Res.bind] at h
        exact gepLoop_true_flag _ _ _ _ _ h
      | err e2 => simp [gepLoop, Res.ctx, hn, Res.bind] at h
      | panic => simp [gepLoop, Res.ctx, hn, Res.bind] at h
    | struct fields =>
      cases hc : index.constInt with
      | none => simp [gepLoop, hc] at h
      | some i =>
        by_cases hb : 0 ≤ int64wrap i ∧ (int64wrap i).toNat < fields.length
        · simp [gepLoop, hc, hb] at h
          exact gepLoop_true_flag _ _ _ _ _ h
        · simp [gepLoop, hc, hb] at h

/-- Claim C1: for every getelementptr input, the statement emitted by the
instruction lowerer is exactly the result name, " = ", and the expression
produced by the standalone resolver `GetElementPtr` for the same element
type, base pointer and index list; and each path returns an error (or
panics) exactly when the other does, with the same message — the two
translation paths agree up to the result-name assignment prefix. -/
theorem instruction_gep_matches_standalone_gep
    (ts : Ty → Res String) (name : String) (src : Value) (elemType : Ty)
    (indices : List Value) :
    TranslateInstruction ts (Inst.getelementptr name src elemType indices)
    = Res.map (fun s => name ++ " = " ++ s)
        (GetElementPtr ts elemType src indices) := by
  cases ht : src.typ with
  | ptr se =>
    by_cases he : se = elemType
    · subst he
      cases indices with
      | nil =>
        simp [TranslateInstruction, GetElementPtr, ht, Res.map]
      | cons i0 rest =>
        cases hh : gepHead ts se src i0 with
        | ok base =>
          simp only [TranslateInstruction, GetElementPtr, ht, instGepHead_eq_gepHead, hh,
            eq_self_iff_true, if_true, Res.bind, instGepLoop_eq_gepLoop]
          exact (map_assign name _).symm
        | err e =>
          simp [TranslateInstruction, GetElementPtr, ht, instGepHead_eq_gepHead, hh,
            Res.bind, Res.map]
        | panic =>
          simp [TranslateInstruction, GetElementPtr, ht, instGepHead_eq_gepHead, hh,
            Res.bind, Res.map]
    · simp [TranslateInstruction, GetElementPtr, ht, he, Res.map]
  | int n => simp [TranslateInstruction, GetElementPtr, ht, Res.map]
  | array n e => simp [TranslateInstruction, GetElementPtr, ht, Res.map]
  | struct fs => simp [TranslateInstruction, GetElementPtr, ht, Res.map]
  | void => simp [TranslateInstruction, GetElementPtr, ht, Res.map]

theorem instruction_gep_matches_standalone_gep_witness :
    TranslateInstruction tsSample
        (Inst.getelementptr "v0" baseSample structI32 [idxZero64, idxZero32])
      = Res.map (fun s => "v0" ++ " = " ++ s)
          (GetElementPtr tsSample structI32 baseSample [idxZero64, idxZero32]) :=
  instruction_gep_matches_standalone_gep tsSample "v0" baseSample structI32
    [idxZero64, idxZero32]

/-- Claim C2 counterexample: on a getelementptr input with one
aggregate-navigation step, the standalone resolver returns the expression
with the address-of prefix already applied (`&x.f0`), not the bare
accumulated access text `x.f0` paired with a needs-address-of flag for
the caller to consume: `GetElementPtr` returns a single string and
applies `&` itself (expression.go lines 83-85). -/
theorem gep_returns_amp_prefixed_expression :
    GetElementPtr tsSample structI32 baseSample [idxZero64, idxZero32]
      = Res.ok "&x.f0"
    ∧ Res.ok "&x.f0" ≠ (Res.ok "x.f0" : Res String) :=
  ⟨by decide, by decide⟩

/-- Claim C2 (amended): `GetElementPtr` returns a single expression
string and applies the address-of prefix internally: on success, when at
least one aggregate-navigation step executed (a non-empty index tail)
the internal `takeAddress` flag is true and the result is `&` prepended
to the accumulated field/element-access text; when no aggregate step
executed the result is exactly the pointer-offset (or bare base)
expression produced by the head. -/
theorem gep_addressof_iff_aggregate_step
    (ts : Ty → Res String) (elemType : Ty) (src : Value) (i0 : Value)
    (rest : List Value) (s : String)
    (h : GetElementPtr ts elemType src (i0 :: rest) = Res.ok s) :
    (rest = [] → gepHead ts elemType src i0 = Res.ok s)
    ∧ (rest ≠ [] → ∃ base body, gepHead ts elemType src i0 = Res.ok base
        ∧ gepLoop rest elemType base false = Res.ok (body, true)
        ∧ s = "&" ++ body) := by
  cases ht : src.typ with
  | ptr se =>
    by_cases he : se = elemType
    · subst he
      cases hh : gepHead ts se src i0 with
      | ok base =>
        cases hl : gepLoop rest se base false with
        | ok p =>
          rcases p with ⟨body, ta⟩
          cases ta with
          | false =>
            simp [GetElementPtr, ht, hh, hl, Res.bind] at h
            constructor
            · intro hrest
              subst hrest
              simp [gepLoop] at hl
              rw [hl, h]
            · intro hne
              exact absurd (gepLoop_flag_of_ne_nil rest hne se base body false hl)
                (by simp)
          | true =>
            simp [GetElementPtr, ht, hh, hl, Res.bind] at h
            constructor
            · intro hrest
              subst hrest
              simp [gepLoop] at hl
            · intro _
              exact ⟨base, body, rfl, hl, h.symm⟩
        | err e => simp [GetElementPtr, ht, hh, hl, Res.bind] at h
        | panic => simp [GetElementPtr, ht, hh, hl, Res.bind] at h
      | err e => simp [GetElementPtr, ht, hh, Res.bind] at h
      | panic => simp [GetElementPtr, ht, hh, Res.bind] at h
    · simp [GetElementPtr, ht, he] at h
  | int n => simp [GetElementPtr, ht] at h
  | array n e => simp [GetElementPtr, ht] at h
  | struct fs => simp [GetElementPtr, ht] at h
  | void => simp [GetElementPtr, ht] at h

theorem gep_addressof_iff_aggregate_step_witness :
    ([idxZero32] ≠ ([] : List Value))
    ∧ (∃ base body, gepHead tsSample structI32 baseSample idxZero64 = Res.ok base
        ∧ gepLoop [idxZero32] structI32 base false = Res.ok (body, true)
        ∧ "&x.f0" = "&" ++ body) :=
  ⟨by simp, (gep_addressof_iff_aggregate_step tsSample structI32 baseSample
      idxZero64 [idxZero32] "&x.f0" (by decide)).2 (by simp)⟩

/-- Claim C3: when the first index is needed (not the constant zero), a
strictly-positive constant index takes the unsigned path — the rendered
index times the element byte size, with no signed cast — while a negative
constant or a non-constant index takes the signed path (an
`uintptr(int64(...))` cast before the multiply); in both cases the
running expression reinterprets (address of base + offset) as
pointer-to-element-type. -/
theorem gep_first_index_offset_paths
    (ts : Ty → Res String) (elemType : Ty) (src i0 : Value)
    (srcText idxText elemText : String)
    (hsrc : src.natural = Res.ok srcText)
    (hidx : i0.natural = Res.ok idxText)
    (hts : ts elemType = Res.ok elemText) :
    (∀ n : Int, i0.constInt = some n → 0 < n →
      gepHead ts elemType src i0 = Res.ok ("(*" ++ elemText
        ++ ")(unsafe.Pointer(uintptr(unsafe.Pointer(" ++ srcText ++ ")) + "
        ++ (idxText ++ " * unsafe.Sizeof(*(*" ++ elemText ++ ")(nil))")
        ++ "))"))
    ∧ ((i0.constInt = none ∨ ∃ n : Int, i0.constInt = some n ∧ n < 0) →
      gepHead ts elemType src i0 = Res.ok ("(*" ++ elemText
        ++ ")(unsafe.Pointer(uintptr(unsafe.Pointer(" ++ srcText ++ ")) + "
        ++ ("uintptr(int64(" ++ idxText ++ ")) * unsafe.Sizeof(*(*" ++ elemText
          ++ ")(nil))") ++ "))")) := by
  constructor
  · intro n hc hpos
    have hn0 : n ≠ 0 := by omega
    simp [gepHead, hc, hsrc, hidx, hts, Res.ctx, Res.bind, hn0, hpos]
  · intro hgen
    rcases hgen with hnone | ⟨n, hc, hneg⟩
    · simp [gepHead, hnone, hsrc, hidx, hts, Res.ctx, Res.bind]
    · have hn0 : n ≠ 0 := by omega
      have hnpos : ¬(0 < n) := by omega
      simp [gepHead, hc, hsrc, hidx, hts, Res.ctx, Res.bind, hn0, hnpos]

theorem gep_first_index_offset_paths_witness :
    gepHead tsSample structI32 baseSample idxTwo64
      = Res.ok ("(*" ++ "\x7b i32 \x7d"
        ++ ")(unsafe.Pointer(uintptr(unsafe.Pointer(" ++ "x" ++ ")) + "
        ++ ("2" ++ " * unsafe.Sizeof(*(*" ++ "\x7b i32 \x7d" ++ ")(nil))")
        ++ "))")
    ∧ gepHead tsSample structI32 baseSample idxNegThree64
      = Res.ok ("(*" ++ "\x7b i32 \x7d"
        ++ ")(unsafe.Pointer(uintptr(unsafe.Pointer(" ++ "x" ++ ")) + "
        ++ ("uintptr(int64(" ++ "-3" ++ ")) * unsafe.Sizeof(*(*"
          ++ "\x7b i32 \x7d" ++ ")(nil))") ++ "))") :=
  ⟨(gep_first_index_offset_paths tsSample structI32 baseSample idxTwo64
      "x" "2" "\x7b i32 \x7d" rfl rfl rfl).1 2 rfl (by norm_num),
   (gep_first_index_offset_paths tsSample structI32 baseSample idxNegThree64
      "x" "-3" "\x7b i32 \x7d" rfl rfl rfl).2
      (Or.inr ⟨-3, rfl, by norm_num⟩)⟩

/-- Claim C4: when the first index is the compile-time constant zero, no
offset code is emitted — the running expression is exactly the rendered
base pointer (for any `TypeSpec` and any index renderer, neither of which
is consulted) — and with no further indices the whole operation returns
the base pointer's rendered text unchanged. -/
theorem gep_zero_first_index
    (ts : Ty → Res String) (elemType : Ty) (src i0 : Value) (srcText : String)
    (h0 : i0.constInt = some 0)
    (hsrc : src.natural = Res.ok srcText)
    (hty : src.typ = Ty.ptr elemType) :
    gepHead ts elemType src i0 = Res.ok srcText
    ∧ GetElementPtr ts elemType src [i0] = Res.ok srcText := by
  have hh : gepHead ts elemType src i0 = Res.ok srcText := by
    simp [gepHead, h0, hsrc, Res.ctx, Res.bind]
  exact ⟨hh, by simp [GetElementPtr, hty, hh, gepLoop, Res.bind]⟩

theorem gep_zero_first_index_witness :
    gepHead tsSample structI32 baseSample idxZero64 = Res.ok "x"
    ∧ GetElementPtr tsSample structI32 baseSample [idxZero64] = Res.ok "x" :=
  gep_zero_first_index tsSample structI32 baseSample idxZero64 "x" rfl rfl rfl

/-- Claim C5: on both translation paths, a base pointer whose static type
is not a pointer type, or whose pointee is not structurally equal to the
declared element type, yields a terminal error before any rendering (the
renderers and `TypeSpec` are never consulted: the result is this error
for every renderer outcome), and no output text is produced. -/
theorem gep_type_mismatch_errors
    (ts : Ty → Res String) (elemType : Ty) (src : Value)
    (indices : List Value) (name : String) :
    ((∀ se : Ty, src.typ ≠ Ty.ptr se) →
      GetElementPtr ts elemType src indices
        = Res.err ("non-pointer source parameter: " ++ tyStr src.typ)
      ∧ TranslateInstruction ts (Inst.getelementptr name src elemType indices)
        = Res.err ("non-pointer source parameter: " ++ tyStr src.typ))
    ∧ (∀ se : Ty, src.typ = Ty.ptr se → se ≠ elemType →
      GetElementPtr ts elemType src indices
        = Res.err "mismatched source and element types"
      ∧ TranslateInstruction ts (Inst.getelementptr name src elemType indices)
        = Res.err "mismatched source and element types") := by
  constructor
  · intro hnp
    cases ht : src.typ with
    | ptr se => exact absurd ht (hnp se)
    | int n =>
      exact ⟨by simp [GetElementPtr, ht], by simp [TranslateInstruction, ht]⟩
    | array n e =>
      exact ⟨by simp [GetElementPtr, ht], by simp [TranslateInstruction, ht]⟩
    | struct fs =>
      exact ⟨by simp [GetElementPtr, ht], by simp [TranslateInstruction, ht]⟩
    | void =>
      exact ⟨by simp [GetElementPtr, ht], by simp [TranslateInstruction, ht]⟩
  · intro se ht hne
    exact ⟨by simp [GetElementPtr, ht, hne],
      by simp [TranslateInstruction, ht, hne]⟩

/-- A value of non-pointer static type, rendering as `p`. -/
def srcNonPtr : Value :=
  ⟨Ty.int 32, none, Res.ok "p", Res.ok "p", Res.ok "p", "%p"⟩

theorem gep_type_mismatch_errors_witness :
    (GetElementPtr tsSample structI32 srcNonPtr [idxZero64]
        = Res.err ("non-pointer source parameter: " ++ tyStr srcNonPtr.typ)
      ∧ TranslateInstruction tsSample
          (Inst.getelementptr "v6" srcNonPtr structI32 [idxZero64])
        = Res.err ("non-pointer source parameter: " ++ tyStr srcNonPtr.typ))
    ∧ (GetElementPtr tsSample (Ty.int 8) baseSample [idxZero64]
        = Res.err "mismatched source and element types"
      ∧ TranslateInstruction tsSample
          (Inst.getelementptr "v6" baseSample (Ty.int 8) [idxZero64])
        = Res.err "mismatched source and element types") :=
  ⟨(gep_type_mismatch_errors tsSample structI32 srcNonPtr [idxZero64] "v6").1
      (fun _ h => by simp [srcNonPtr] at h),
   (gep_type_mismatch_errors tsSample (Ty.int 8) baseSample [idxZero64] "v6").2
      structI32 rfl (by decide)⟩

/-- Claim C6 (code bug exhibited): for every binary arithmetic kind
(add, and, or, multiply, subtract), when the right operand's rendering
fails the emitted error names the right side but interpolates the LEFT
operand's printed value — instructions.go lines 23, 48, 242, 253 and 324
pass `inst.X` instead of `inst.Y` to the format string — so the error
does not include the offending operand's value, contrary to the claim.
Here the left operand prints as `i32 %a`, the failing right operand as
`i32 %bad`, yet every error text carries `i32 %a`. -/
theorem binary_right_operand_error_uses_left_value :
    (TranslateInstruction tsSample (Inst.add "v" operandA operandBad)
      = Res.err "error translating right operand (i32 %a): unsupported value")
    ∧ (TranslateInstruction tsSample (Inst.and "v" operandA operandBad)
      = Res.err "error translating right operand (i32 %a): unsupported value")
    ∧ (TranslateInstruction tsSample (Inst.or "v" operandA operandBad)
      = Res.err "error translating right operand (i32 %a): unsupported value")
    ∧ (TranslateInstruction tsSample (Inst.mul "v" operandA operandBad)
      = Res.err "error translating right operand (i32 %a): unsupported value")
    ∧ (TranslateInstruction tsSample (Inst.sub "v" operandA operandBad)
      = Res.err "error translating right operand (i32 %a): unsupported value")
    ∧ operandA.vstr = "i32 %a" ∧ operandBad.vstr ≠ "i32 %a" :=
  ⟨by decide, by decide, by decide, by decide, by decide, rfl, by decide⟩

/-- Claim C7: logical-shift-right renders both operands forced-unsigned;
when the declared result type is an integer wider than 8 bits, the
statement re-casts the unsigned shift to the signed integer type of that
exact bit-width (`result = intN(x >> y)`); at 8 bits or narrower no
re-cast appears (`result = x >> y`). -/
theorem lshr_recast_iff_wide
    (ts : Ty → Res String) (name : String) (x y : Value) (typ : Ty)
    (xs ys : String)
    (hx : x.unsigned = Res.ok xs) (hy : y.unsigned = Res.ok ys) :
    (∀ n : Nat, typ = Ty.int n → 8 < n →
      TranslateInstruction ts (Inst.lshr name x y typ)
        = Res.ok (name ++ " = int" ++ toString n ++ "(" ++ xs ++ " >> "
            ++ ys ++ ")"))
    ∧ (∀ n : Nat, typ = Ty.int n → n ≤ 8 →
      TranslateInstruction ts (Inst.lshr name x y typ)
        = Res.ok (name ++ " = " ++ xs ++ " >> " ++ ys)) := by
  constructor
  · intro n htyp hn
    subst htyp
    simp [TranslateInstruction, hx, hy, Res.ctx, Res.bind, hn]
  · intro n htyp hn
    subst htyp
    simp [TranslateInstruction, hx, hy, Res.ctx, Res.bind, Nat.not_lt.mpr hn]

theorem lshr_recast_iff_wide_witness :
    TranslateInstruction tsSample (Inst.lshr "v2" operandA operandB (Ty.int 32))
      = Res.ok ("v2" ++ " = int" ++ toString 32 ++ "(" ++ "a" ++ " >> "
          ++ "b" ++ ")")
    ∧ TranslateInstruction tsSample (Inst.lshr "v2" operandA operandB (Ty.int 8))
      = Res.ok ("v2" ++ " = " ++ "a" ++ " >> " ++ "b") :=
  ⟨(lshr_recast_iff_wide tsSample "v2" operandA operandB (Ty.int 32)
      "a" "b" rfl rfl).1 32 rfl (by norm_num),
   (lshr_recast_iff_wide tsSample "v2" operandA operandB (Ty.int 8)
      "a" "b" rfl rfl).2 8 rfl (by norm_num)⟩

/-- Claim C8: zero-extend requires an integer destination type (terminal
error otherwise); on success it renders the source forced-unsigned,
wraps it as unsigned at the destination width, then casts to the signed
destination type (`result = intN(uintN(x))`); sign-extend instead
renders the source forced-signed and casts directly
(`result = intN(x)`). -/
theorem zext_two_step_sext_direct
    (ts : Ty → Res String) (name : String) (v : Value) (toTy : Ty) :
    ((∀ n : Nat, toTy ≠ Ty.int n) →
      TranslateInstruction ts (Inst.zext name v toTy)
        = Res.err ("unsupported To type for zext: " ++ tyTypeName toTy))
    ∧ (∀ (n : Nat) (s : String), toTy = Ty.int n → v.unsigned = Res.ok s →
      TranslateInstruction ts (Inst.zext name v toTy)
        = Res.ok (name ++ " = int" ++ toString n ++ "(uint" ++ toString n
            ++ "(" ++ s ++ "))"))
    ∧ (∀ (n : Nat) (s : String), toTy = Ty.int n → v.signed = Res.ok s →
      TranslateInstruction ts (Inst.sext name v toTy)
        = Res.ok (name ++ " = int" ++ toString n ++ "(" ++ s ++ ")")) := by
  refine ⟨?_, ?_, ?_⟩
  · intro hnot
    cases toTy with
    | int n => exact absurd rfl (hnot n)
    | ptr e => rfl
    | array n e => rfl
    | struct fs => rfl
    | void => rfl
  · intro n s htyp hs
    subst htyp
    simp [TranslateInstruction, hs, Res.ctx, Res.bind]
  · intro n s htyp hs
    subst htyp
    simp [TranslateInstruction, hs, Res.ctx, Res.bind]

theorem zext_two_step_sext_direct_witness :
    (TranslateInstruction tsSample (Inst.zext "v3" operandA (Ty.ptr (Ty.int 8)))
      = Res.err ("unsupported To type for zext: "
          ++ tyTypeName (Ty.ptr (Ty.int 8))))
    ∧ (TranslateInstruction tsSample (Inst.zext "v3" operandA (Ty.int 32))
      = Res.ok ("v3" ++ " = int" ++ toString 32 ++ "(uint" ++ toString 32
          ++ "(" ++ "a" ++ "))"))
    ∧ (TranslateInstruction tsSample (Inst.sext "v3" operandA (Ty.int 32))
      = Res.ok ("v3" ++ " = int" ++ toString 32 ++ "(" ++ "a" ++ ")")) :=
  ⟨(zext_two_step_sext_direct tsSample "v3" operandA (Ty.ptr (Ty.int 8))).1
      (fun _ h => Ty.noConfusion h),
   (zext_two_step_sext_direct tsSample "v3" operandA (Ty.int 32)).2.1
      32 "a" rfl rfl,
   (zext_two_step_sext_direct tsSample "v3" operandA (Ty.int 32)).2.2
      32 "a" rfl rfl⟩

/-- Claim C9: a call whose rendered callee is one of the two
lifetime-hint intrinsic names lowers to empty text with no error, for
arbitrary arguments (which are never rendered — the result holds even
for arguments whose renderers fail); a call whose rendered callee is the
object-size intrinsic name lowers to exactly `result = -1`, likewise
ignoring the arguments. -/
theorem call_intrinsic_special_cases
    (ts : Ty → Res String) (name : String) (callee : Value)
    (args : List Value) (typ : Ty) (c : String)
    (hc : callee.natural = Res.ok c) :
    ((c = "llvm.lifetime.start" ∨ c = "llvm.lifetime.end") →
      TranslateInstruction ts (Inst.call name callee args typ) = Res.ok "")
    ∧ (c = "llvm.objectsize.i64.p0i8" →
      TranslateInstruction ts (Inst.call name callee args typ)
        = Res.ok (name ++ " = -1")) := by
  constructor
  · intro h
    cases h with
    | inl h => subst h; simp [TranslateInstruction, hc, Res.ctx, Res.bind]
    | inr h => subst h; simp [TranslateInstruction, hc, Res.ctx, Res.bind]
  · intro h
    subst h
    simp [TranslateInstruction, hc, Res.ctx, Res.bind]

/-- A callee value rendering as the lifetime-start intrinsic name. -/
def calleeLifetimeStart : Value :=
  ⟨Ty.ptr (Ty.int 8), none, Res.ok "llvm.lifetime.start",
    Res.ok "llvm.lifetime.start", Res.ok "llvm.lifetime.start",
    "@llvm.lifetime.start"⟩

/-- A callee value rendering as the object-size intrinsic name. -/
def calleeObjectsize : Value :=
  ⟨Ty.ptr (Ty.int 8), none, Res.ok "llvm.objectsize.i64.p0i8",
    Res.ok "llvm.objectsize.i64.p0i8", Res.ok "llvm.objectsize.i64.p0i8",
    "@llvm.objectsize.i64.p0i8"⟩

theorem call_intrinsic_special_cases_witness :
    TranslateInstruction tsSample
        (Inst.call "v4" calleeLifetimeStart [operandBad] Ty.void) = Res.ok ""
    ∧ TranslateInstruction tsSample
        (Inst.call "v5" calleeObjectsize [operandBad] (Ty.int 64))
      = Res.ok ("v5" ++ " = -1") :=
  ⟨(call_intrinsic_special_cases tsSample "v4" calleeLifetimeStart [operandBad]
      Ty.void "llvm.lifetime.start" rfl).1 (Or.inl rfl),
   (call_intrinsic_special_cases tsSample "v5" calleeObjectsize [operandBad]
      (Ty.int 64) "llvm.objectsize.i64.p0i8" rfl).2 rfl⟩

/-- Claim C10: in the aggregate-navigation walk, when the active type is
a record the constant index selects the field type with no bounds check:
a non-constant index is the only cleanly reported error, while a
constant index outside [0, number of fields) reaches the out-of-bounds
field-list access — a runtime panic, not a returned error — on the
standalone path as well as inside a full `GetElementPtr` run. -/
theorem struct_walk_no_bounds_check
    (fields : List Ty) (index : Value) (more : List Value)
    (r : String) (b : Bool) :
    (∀ i : Int, index.constInt = some i →
      ¬(0 ≤ int64wrap i ∧ (int64wrap i).toNat < fields.length) →
      gepLoop (index :: more) (Ty.struct fields) r b = Res.panic)
    ∧ (index.constInt = none →
      gepLoop (index :: more) (Ty.struct fields) r b
        = Res.err ("non-constant index into struct: " ++ index.vstr))
    ∧ (∀ (ts : Ty → Res String) (src i0 : Value) (s : String) (i : Int),
        src.typ = Ty.ptr (Ty.struct fields) → i0.constInt = some 0 →
        src.natural = Res.ok s → index.constInt = some i →
        ¬(0 ≤ int64wrap i ∧ (int64wrap i).toNat < fields.length) →
        GetElementPtr ts (Ty.struct fields) src [i0, index] = Res.panic) := by
  refine ⟨?_, ?_, ?_⟩
  · intro i hc hnb
    simp [gepLoop, hc, hnb]
  · intro hc
    simp [gepLoop, hc]
  · intro ts src i0 s i hty h0 hs hc hnb
    have hh : gepHead ts (Ty.struct fields) src i0 = Res.ok s := by
      simp [gepHead, h0, hs, Res.ctx, Res.bind]
    simp [GetElementPtr, hty, hh, Res.bind, gepLoop, hc, hnb]

theorem struct_walk_no_bounds_check_witness :
    gepLoop [idxFive32] (Ty.struct [Ty.int 32]) "x" false = Res.panic
    ∧ gepLoop [idxVar64] (Ty.struct [Ty.int 32]) "x" false
      = Res.err ("non-constant index into struct: " ++ idxVar64.vstr)
    ∧ GetElementPtr tsSample (Ty.struct [Ty.int 32]) baseSample
        [idxZero64, idxFive32] = Res.panic :=
  ⟨(struct_walk_no_bounds_check [Ty.int 32] idxFive32 [] "x" false).1
      5 rfl (by decide),
   (struct_walk_no_bounds_check [Ty.int 32] idxVar64 [] "x" false).2.1 rfl,
   (struct_walk_no_bounds_check [Ty.int 32] idxFive32 [] "x" false).2.2
      tsSample baseSample idxZero64 "x" 5 rfl rfl rfl rfl (by decide)⟩
